import Mathlib

/-!
# KVSRadixTreeTiny: the key-value facade over the radix tree

A shallow embedding of `src/kvs_radix_tree_tiny.cc` (the facade) over the
operations that `include/radixtree/radix_tree.h` declares for the tree.

Conventions of the embedding:

* a `char *` buffer holding a key is the list of its bytes, passed together with
  its length argument, as in the source;
* the 8 bytes at a `val` pointer are one 64-bit word (`CHAR2UINT64`), a `Nat`;
  the facade never does arithmetic on it;
* a reference parameter is an argument (the value on entry) and a field of the
  result (the value on return);
* `std::vector<RadixTree::Iter*> iters_` is the list of the addresses it holds,
  and the `Iter` objects made by `new` live in `iterHeap`, addressed by index;
* the `(int)` conversion of a `size_t` is `castInt`, reduction modulo `2^32`
  into the signed range.
-/

namespace radixtree

/-! ## Pointers -/

/-- Modelled from the spec: `nvmm::GlobalPtr` (nvmm/global_ptr.h is not part of
the sources). An opaque 64-bit handle; `0` denotes null; equality is bitwise. -/
structure Gptr where
  raw : Nat
deriving DecidableEq, Repr

/-- Modelled from the spec: `GlobalPtr::IsValid`; the null pointer is `0`. -/
def Gptr.IsValid (g : Gptr) : Bool := g.raw != 0

/-- Modelled from the spec: `TagGptr` (radixtree/common.h is not part of the
sources). The pair (gptr, version); two tagged pointers are equal iff both
fields match. -/
structure TagGptr where
  gptr : Gptr
  version : Nat
deriving DecidableEq, Repr

/-- Modelled from the spec: `TagGptr::IsValid`, valid iff `gptr ≠ 0`. -/
def TagGptr.IsValid (p : TagGptr) : Bool := p.gptr.IsValid

/-- Modelled from the spec: `TagGptr::gptr_nomark`, the pointer field of the
tagged pointer. -/
def TagGptr.gptr_nomark (p : TagGptr) : Gptr := p.gptr

/-- The default-constructed `TagGptr`: null with version 0. -/
def TagGptr.null : TagGptr := ⟨⟨0⟩, 0⟩

/-- The macro `CHAR2UINT64_CONST(x)`: the 8 bytes at `x` read as one word. -/
def CHAR2UINT64_CONST (x : Nat) : Nat := x

/-- The enum `UpdateFlags` of radix_tree.h. -/
inductive UpdateFlags where
  | FIND_OR_CREATE
  | UPDATE
deriving DecidableEq, Repr

/-! ## The tree interface (radix_tree.h) -/

/-- What `RadixTree::scan` and `RadixTree::get_next` leave behind: the return
code, the iterator, the reference parameters `key`, `key_size`, `value`, and the
tree. -/
structure IterResult (σ ι : Type) where
  ret : Int
  iter : ι
  key : List Nat
  key_size : Nat
  value : TagGptr
  tree : σ

/-- The public operations of `class RadixTree` as radix_tree.h declares them.
Their bodies (radix_tree.cc) are not part of the sources, so the facade is
embedded over an arbitrary implementation: `σ` is the state of the tree and `ι`
the state of a `RadixTree::Iter`. Every operation may change the tree. -/
structure RadixTree (σ ι : Type) where
  /-- The constructor `RadixTree::Iter()`. -/
  newIter : ι
  put : σ → List Nat → Nat → Gptr → UpdateFlags → TagGptr × σ
  get : σ → List Nat → Nat → TagGptr × σ
  destroy : σ → List Nat → Nat → TagGptr × σ
  /-- Arguments: tree, iter, key, key_size, value, begin_key, begin_key_size,
  begin_key_inclusive, end_key, end_key_size, end_key_inclusive. -/
  scan : σ → ι → List Nat → Nat → TagGptr → List Nat → Nat → Bool →
    List Nat → Nat → Bool → IterResult σ ι
  /-- Arguments: tree, iter, key, key_size, value. -/
  get_next : σ → ι → List Nat → Nat → TagGptr → IterResult σ ι
  /-- The overload `putC(key, key_size, value, old_value)`: the pair returned, `old_value`
  on return, the tree. -/
  putC : σ → List Nat → Nat → Gptr → TagGptr → (Gptr × TagGptr) × TagGptr × σ
  /-- The overload `putC(key_ptr, value, old_value)`, same layout of the result. -/
  putC_ptr : σ → Gptr → Gptr → TagGptr → TagGptr × TagGptr × σ
  /-- The overload `getC(key, key_size)`. -/
  getC : σ → List Nat → Nat → (Gptr × TagGptr) × σ
  /-- The overload `getC(key_ptr)`. -/
  getC_ptr : σ → Gptr → TagGptr × σ
  /-- The overload `destroyC(key, key_size, old_value)`: the pair returned, `old_value` on return, the tree. -/
  destroyC : σ → List Nat → Nat → TagGptr → (Gptr × TagGptr) × TagGptr × σ
  /-- The overload `destroyC(key_ptr, old_value)`, same layout of the result. -/
  destroyC_ptr : σ → Gptr → TagGptr → TagGptr × TagGptr × σ

/-! ## The facade (kvs_radix_tree_tiny.cc) -/

/-- Modelled from the spec: `kMaxKeyLen` (kvs_radix_tree_tiny.h is not part of
the sources); keys are at most 40 bytes, `RadixTree::MAX_KEY_LEN`. -/
def kMaxKeyLen : Nat := 40

/-- Modelled from the spec: `kMaxValLen` (kvs_radix_tree_tiny.h is not part of
the sources); value pointers are exactly 8 bytes. -/
def kMaxValLen : Nat := 8

/-- The conversion `(int)` applied to a `size_t`: modulo `2^32`, into the range
of a 32-bit signed integer. -/
def castInt (n : Nat) : Int :=
  if n % 2 ^ 32 < 2 ^ 31 then ((n % 2 ^ 32 : Nat) : Int) else ((n % 2 ^ 32 : Nat) : Int) - 2 ^ 32

/-- The members of `KVSRadixTreeTiny` that the operations read or write: the
tree `*tree_`, the handle table `iters_` (addresses of `Iter` objects), and the
`Iter` objects allocated so far (the object at address `a` is `iterHeap[a]`). -/
structure KVSRadixTreeTiny (σ ι : Type) where
  tree_ : σ
  iters_ : List Nat
  iterHeap : List ι

/-- Result of an operation with the reference parameters `val`, `val_len`. -/
structure ValResult (σ ι : Type) where
  ret : Int
  val : Nat
  val_len : Nat
  self : KVSRadixTreeTiny σ ι

/-- Result of `Scan` and `GetNext`. -/
structure ScanResult (σ ι : Type) where
  ret : Int
  iter_handle : Int
  key : List Nat
  key_len : Nat
  val : Nat
  val_len : Nat
  self : KVSRadixTreeTiny σ ι

/-- Result of an operation of the caching interface, with the reference
parameters `val`, `val_len`, `key_ptr`, `val_ptr`. -/
structure CacheResult (σ ι : Type) where
  ret : Int
  val : Nat
  val_len : Nat
  key_ptr : Gptr
  val_ptr : TagGptr
  self : KVSRadixTreeTiny σ ι

/-- Result of an operation of the caching interface that has no `val` reference
parameter: `key_ptr` and `val_ptr` on return. -/
structure PtrResult (σ ι : Type) where
  ret : Int
  key_ptr : Gptr
  val_ptr : TagGptr
  self : KVSRadixTreeTiny σ ι

variable {σ ι : Type}

/-- The method `int KVSRadixTreeTiny::Put(key, key_len, val, val_len)`. -/
def Put (t : RadixTree σ ι) (self : KVSRadixTreeTiny σ ι)
    (key : List Nat) (key_len : Nat) (val : Nat) (val_len : Nat) :
    Int × KVSRadixTreeTiny σ ι :=
  if key_len > kMaxKeyLen then (-1, self)
  else if val_len > kMaxValLen then (-1, self)
  else
    let val_gptr : Gptr := ⟨CHAR2UINT64_CONST val⟩
    let old_value := t.put self.tree_ key key_len val_gptr UpdateFlags.UPDATE
    (0, { self with tree_ := old_value.2 })

/-- The method `int KVSRadixTreeTiny::Get(key, key_len, val, val_len)`. -/
def Get (t : RadixTree σ ι) (self : KVSRadixTreeTiny σ ι)
    (key : List Nat) (key_len : Nat) (val : Nat) (val_len : Nat) : ValResult σ ι :=
  if key_len > kMaxKeyLen then ⟨-1, val, val_len, self⟩
  else
    let r := t.get self.tree_ key key_len
    let val_ptr := r.1
    let self1 := { self with tree_ := r.2 }
    let val1 := val_ptr.gptr_nomark.raw
    let val_len1 := kMaxValLen
    if !val_ptr.IsValid then ⟨-2, val1, val_len1, self1⟩
    else ⟨0, val1, val_len1, self1⟩

/-- The method `int KVSRadixTreeTiny::Del(key, key_len)`. -/
def Del (t : RadixTree σ ι) (self : KVSRadixTreeTiny σ ι)
    (key : List Nat) (key_len : Nat) : Int × KVSRadixTreeTiny σ ι :=
  if key_len > kMaxKeyLen then (-1, self)
  else
    let r := t.destroy self.tree_ key key_len
    let val_ptr := r.1
    let self1 := { self with tree_ := r.2 }
    if !val_ptr.IsValid then (-2, self1)
    else (0, self1)

/-- The method `int KVSRadixTreeTiny::Scan(iter_handle, key, key_len, val, val_len,
begin_key, begin_key_len, begin_key_inclusive, end_key, end_key_len,
end_key_inclusive)`. The iterator made by `new` is placed at the next free
address of `iterHeap`; it stays there when the tree reports no key in range. -/
def Scan (t : RadixTree σ ι) (self : KVSRadixTreeTiny σ ι)
    (iter_handle : Int) (key : List Nat) (key_len : Nat) (val : Nat) (val_len : Nat)
    (begin_key : List Nat) (begin_key_len : Nat) (begin_key_inclusive : Bool)
    (end_key : List Nat) (end_key_len : Nat) (end_key_inclusive : Bool) :
    ScanResult σ ι :=
  if begin_key_len > kMaxKeyLen ∨ end_key_len > kMaxKeyLen then
    ⟨-1, iter_handle, key, key_len, val, val_len, self⟩
  else if key_len > kMaxKeyLen then ⟨-1, iter_handle, key, key_len, val, val_len, self⟩
  else if val_len > kMaxValLen then ⟨-1, iter_handle, key, key_len, val, val_len, self⟩
  else
    let iter := self.iterHeap.length
    let r := t.scan self.tree_ t.newIter key key_len TagGptr.null
      begin_key begin_key_len begin_key_inclusive end_key end_key_len end_key_inclusive
    let self1 : KVSRadixTreeTiny σ ι :=
      { self with tree_ := r.tree, iterHeap := self.iterHeap ++ [r.iter] }
    if r.ret ≠ 0 then ⟨-2, iter_handle, r.key, r.key_size, val, val_len, self1⟩
    else
      let val1 := r.value.gptr_nomark.raw
      let val_len1 := kMaxValLen
      let self2 := { self1 with iters_ := self1.iters_ ++ [iter] }
      ⟨0, castInt (self2.iters_.length - 1), r.key, r.key_size, val1, val_len1, self2⟩

/-- The method `int KVSRadixTreeTiny::GetNext(iter_handle, key, key_len, val, val_len)`.
Past the range check `iters_[iter_handle]` is an address of `iterHeap`; the
defaults of `getD` stand for a dangling read, which the check excludes. -/
def GetNext (t : RadixTree σ ι) (self : KVSRadixTreeTiny σ ι)
    (iter_handle : Int) (key : List Nat) (key_len : Nat) (val : Nat) (val_len : Nat) :
    ScanResult σ ι :=
  if key_len > kMaxKeyLen then ⟨-1, iter_handle, key, key_len, val, val_len, self⟩
  else if val_len > kMaxValLen then ⟨-1, iter_handle, key, key_len, val, val_len, self⟩
  else if iter_handle < 0 ∨ iter_handle ≥ castInt self.iters_.length then
    ⟨-1, iter_handle, key, key_len, val, val_len, self⟩
  else
    let iter := self.iters_.getD iter_handle.toNat 0
    let r := t.get_next self.tree_ (self.iterHeap.getD iter t.newIter) key key_len TagGptr.null
    let self1 : KVSRadixTreeTiny σ ι :=
      { self with tree_ := r.tree, iterHeap := self.iterHeap.set iter r.iter }
    if r.ret ≠ 0 then ⟨-2, iter_handle, r.key, r.key_size, val, val_len, self1⟩
    else ⟨0, iter_handle, r.key, r.key_size, r.value.gptr_nomark.raw, kMaxValLen, self1⟩

/-- The method `int KVSRadixTreeTiny::Put(key, key_len, val, val_len, key_ptr,
val_ptr)`, for consistent DRAM caching. -/
def Put_cache (t : RadixTree σ ι) (self : KVSRadixTreeTiny σ ι)
    (key : List Nat) (key_len : Nat) (val : Nat) (val_len : Nat)
    (key_ptr : Gptr) (val_ptr : TagGptr) : PtrResult σ ι :=
  if key_len > kMaxKeyLen then ⟨-1, key_ptr, val_ptr, self⟩
  else if val_len > kMaxValLen then ⟨-1, key_ptr, val_ptr, self⟩
  else
    let val_gptr : Gptr := ⟨CHAR2UINT64_CONST val⟩
    let r := t.putC self.tree_ key key_len val_gptr TagGptr.null
    let kv_ptr := r.1
    ⟨0, kv_ptr.1, kv_ptr.2, { self with tree_ := r.2.2 }⟩

/-- The method `int KVSRadixTreeTiny::Put(key_ptr, val_ptr, val, val_len)`. -/
def Put_ptr (t : RadixTree σ ι) (self : KVSRadixTreeTiny σ ι)
    (key_ptr : Gptr) (val_ptr : TagGptr) (val : Nat) (val_len : Nat) : PtrResult σ ι :=
  if val_len > kMaxValLen then ⟨-1, key_ptr, val_ptr, self⟩
  else
    let val_gptr : Gptr := ⟨CHAR2UINT64_CONST val⟩
    let r := t.putC_ptr self.tree_ key_ptr val_gptr TagGptr.null
    ⟨0, key_ptr, r.1, { self with tree_ := r.2.2 }⟩

/-- The method `int KVSRadixTreeTiny::Get(key, key_len, val, val_len, key_ptr, val_ptr)`. -/
def Get_cache (t : RadixTree σ ι) (self : KVSRadixTreeTiny σ ι)
    (key : List Nat) (key_len : Nat) (val : Nat) (val_len : Nat)
    (key_ptr : Gptr) (val_ptr : TagGptr) : CacheResult σ ι :=
  if key_len > kMaxKeyLen then ⟨-1, val, val_len, key_ptr, val_ptr, self⟩
  else
    let r := t.getC self.tree_ key key_len
    let kv_ptr := r.1
    let self1 := { self with tree_ := r.2 }
    let key_ptr1 := kv_ptr.1
    let val_ptr1 := kv_ptr.2
    if !kv_ptr.1.IsValid then ⟨0, val, val_len, key_ptr1, val_ptr1, self1⟩
    else if kv_ptr.2.IsValid then
      ⟨0, val_ptr1.gptr_nomark.raw, kMaxValLen, key_ptr1, val_ptr1, self1⟩
    else ⟨0, val, val_len, key_ptr1, val_ptr1, self1⟩

/-- The method `int KVSRadixTreeTiny::Get(key_ptr, val_ptr, val, val_len, get_value)`. -/
def Get_ptr (t : RadixTree σ ι) (self : KVSRadixTreeTiny σ ι)
    (key_ptr : Gptr) (val_ptr : TagGptr) (val : Nat) (val_len : Nat) (get_value : Bool) :
    CacheResult σ ι :=
  let r := t.getC_ptr self.tree_ key_ptr
  let val_ptr_cur := r.1
  let self1 := { self with tree_ := r.2 }
  if val_ptr_cur = val_ptr ∧ get_value = false then
    ⟨0, val, val_len, key_ptr, val_ptr, self1⟩
  else
    let val_ptr1 := val_ptr_cur
    ⟨0, val_ptr1.gptr_nomark.raw, kMaxValLen, key_ptr, val_ptr1, self1⟩

/-- The method `int KVSRadixTreeTiny::Del(key, key_len, key_ptr, val_ptr)`. -/
def Del_cache (t : RadixTree σ ι) (self : KVSRadixTreeTiny σ ι)
    (key : List Nat) (key_len : Nat) (key_ptr : Gptr) (val_ptr : TagGptr) :
    PtrResult σ ι :=
  if key_len > kMaxKeyLen then ⟨-1, key_ptr, val_ptr, self⟩
  else
    let r := t.destroyC self.tree_ key key_len TagGptr.null
    let kv_ptr := r.1
    ⟨0, kv_ptr.1, kv_ptr.2, { self with tree_ := r.2.2 }⟩

/-- The method `int KVSRadixTreeTiny::Del(key_ptr, val_ptr)`. -/
def Del_ptr (t : RadixTree σ ι) (self : KVSRadixTreeTiny σ ι)
    (key_ptr : Gptr) (_val_ptr : TagGptr) : PtrResult σ ι :=
  let r := t.destroyC_ptr self.tree_ key_ptr TagGptr.null
  ⟨0, key_ptr, r.1, { self with tree_ := r.2.2 }⟩

/-- The method `int KVSRadixTreeTiny::FindOrCreate(key, key_len, val, val_len, ret_val,
ret_len)`: the body is `return 0;`. -/
def FindOrCreate (_t : RadixTree σ ι) (self : KVSRadixTreeTiny σ ι)
    (_key : List Nat) (_key_len : Nat) (_val : Nat) (_val_len : Nat)
    (ret_val : Nat) (ret_len : Nat) : ValResult σ ι :=
  ⟨0, ret_val, ret_len, self⟩

/-! ## Recording the calls made on the tree -/

/-- One call of a tree operation, with the arguments that identify it. -/
inductive Call where
  | put (key : List Nat) (key_size : Nat) (value : Gptr) (update : UpdateFlags)
  | get (key : List Nat) (key_size : Nat)
  | destroy (key : List Nat) (key_size : Nat)
  | scan (begin_key : List Nat) (begin_key_size : Nat) (begin_key_inclusive : Bool)
      (end_key : List Nat) (end_key_size : Nat) (end_key_inclusive : Bool)
  | get_next
  | putC (key : List Nat) (key_size : Nat) (value : Gptr)
  | putC_ptr (key_ptr : Gptr) (value : Gptr)
  | getC (key : List Nat) (key_size : Nat)
  | getC_ptr (key_ptr : Gptr)
  | destroyC (key : List Nat) (key_size : Nat)
  | destroyC_ptr (key_ptr : Gptr)
deriving DecidableEq, Repr

/-- The tree `t` with a log: every operation behaves as in `t` and appends its
call to the log. The facade run over `t.logged` shows which tree operations it
invokes, and how often. -/
def RadixTree.logged (t : RadixTree σ ι) : RadixTree (σ × List Call) ι where
  newIter := t.newIter
  put s key n v u :=
    let r := t.put s.1 key n v u
    (r.1, (r.2, s.2 ++ [Call.put key n v u]))
  get s key n :=
    let r := t.get s.1 key n
    (r.1, (r.2, s.2 ++ [Call.get key n]))
  destroy s key n :=
    let r := t.destroy s.1 key n
    (r.1, (r.2, s.2 ++ [Call.destroy key n]))
  scan s it key n v bk bn bi ek en ei :=
    let r := t.scan s.1 it key n v bk bn bi ek en ei
    ⟨r.ret, r.iter, r.key, r.key_size, r.value, (r.tree, s.2 ++ [Call.scan bk bn bi ek en ei])⟩
  get_next s it key n v :=
    let r := t.get_next s.1 it key n v
    ⟨r.ret, r.iter, r.key, r.key_size, r.value, (r.tree, s.2 ++ [Call.get_next])⟩
  putC s key n v old :=
    let r := t.putC s.1 key n v old
    (r.1, r.2.1, (r.2.2, s.2 ++ [Call.putC key n v]))
  putC_ptr s p v old :=
    let r := t.putC_ptr s.1 p v old
    (r.1, r.2.1, (r.2.2, s.2 ++ [Call.putC_ptr p v]))
  getC s key n :=
    let r := t.getC s.1 key n
    (r.1, (r.2, s.2 ++ [Call.getC key n]))
  getC_ptr s p :=
    let r := t.getC_ptr s.1 p
    (r.1, (r.2, s.2 ++ [Call.getC_ptr p]))
  destroyC s key n old :=
    let r := t.destroyC s.1 key n old
    (r.1, r.2.1, (r.2.2, s.2 ++ [Call.destroyC key n]))
  destroyC_ptr s p old :=
    let r := t.destroyC_ptr s.1 p old
    (r.1, r.2.1, (r.2.2, s.2 ++ [Call.destroyC_ptr p]))

/-! ## The tree as the specification describes it -/

namespace Spec

/-- Modelled from the spec: the state of the radix tree (radix_tree.cc is not
part of the sources), as its key nodes in order of creation, each with its full
key and its value slot. The key node at position `i` has address `i + 1`; key
nodes are never freed. -/
abbrev Tree := List (List Nat × TagGptr)

/-- Modelled from the spec: the value slot of the key node of `k`, if the key
node exists (the descent of section 4.2 seen from outside). -/
def slot : Tree → List Nat → Option TagGptr
  | [], _ => none
  | (k1, s) :: rest, k => if k1 = k then some s else slot rest k

/-- Modelled from the spec: the address of the key node of `k`, null if there is
none. -/
def node : Tree → List Nat → Nat
  | [], _ => 0
  | (k1, _) :: rest, k =>
    if k1 = k then 1 else
      match node rest k with
      | 0 => 0
      | n + 1 => n + 2

/-- Modelled from the spec: writing the value slot of the key node of `k`,
creating the key node when there is none. -/
def setSlot : Tree → List Nat → TagGptr → Tree
  | [], k, s => [(k, s)]
  | (k1, s1) :: rest, k, s =>
    if k1 = k then (k1, s) :: rest else (k1, s1) :: setSlot rest k s

/-- Modelled from the spec: the value slot at a key-node address. -/
def slotAt (t : Tree) (p : Gptr) : Option TagGptr :=
  if p.raw = 0 then none else (t.get? (p.raw - 1)).map (fun e => e.2)

/-- Modelled from the spec: writing the value slot at a key-node address. -/
def setSlotAt (t : Tree) (p : Gptr) (s : TagGptr) : Tree :=
  if p.raw = 0 then t else t.modify (fun e => (e.1, s)) (p.raw - 1)

/-- Modelled from the spec: section 4.3, insert. Both modes return the
pre-existing tagged value (null with version 0 if the node did not exist);
update always overwrites and bumps the version, find-or-create leaves an
existing value alone; a new key node gets version 1. -/
def put (t : Tree) (key : List Nat) (key_size : Nat) (value : Gptr) (update : UpdateFlags) :
    TagGptr × Tree :=
  let k := key.take key_size
  match slot t k with
  | none => (TagGptr.null, setSlot t k ⟨value, 1⟩)
  | some s =>
    if update = UpdateFlags.FIND_OR_CREATE ∧ s.IsValid then (s, t)
    else (s, setSlot t k ⟨value, s.version + 1⟩)

/-- Modelled from the spec: section 4.4, lookup; the current value slot of the
key node, otherwise null with version 0. -/
def get (t : Tree) (key : List Nat) (key_size : Nat) : TagGptr × Tree :=
  ((slot t (key.take key_size)).getD TagGptr.null, t)

/-- Modelled from the spec: section 4.5, delete. A valid slot is captured, its
gptr set to 0 and its version bumped; a tombstone is returned unchanged; an
absent key gives null with version 0. -/
def destroy (t : Tree) (key : List Nat) (key_size : Nat) : TagGptr × Tree :=
  let k := key.take key_size
  match slot t k with
  | none => (TagGptr.null, t)
  | some s =>
    if s.IsValid then (s, setSlot t k ⟨⟨0⟩, s.version + 1⟩) else (s, t)

/-- Modelled from the spec: section 4.6, `putC(key)`; the key node address, the
new tagged value, and the old one. -/
def putC (t : Tree) (key : List Nat) (key_size : Nat) (value : Gptr) (_old : TagGptr) :
    (Gptr × TagGptr) × TagGptr × Tree :=
  let k := key.take key_size
  let old := (slot t k).getD TagGptr.null
  let new_value : TagGptr := ⟨value, old.version + 1⟩
  let t1 := setSlot t k new_value
  ((⟨node t1 k⟩, new_value), old, t1)

/-- Modelled from the spec: section 4.6, `putC(key_gptr, value)`, direct update
by node address with the same version rule. An address that is no key node is
left alone. -/
def putC_ptr (t : Tree) (key_ptr : Gptr) (value : Gptr) (old : TagGptr) :
    TagGptr × TagGptr × Tree :=
  match slotAt t key_ptr with
  | none => (TagGptr.null, old, t)
  | some s => (⟨value, s.version + 1⟩, s, setSlotAt t key_ptr ⟨value, s.version + 1⟩)

/-- Modelled from the spec: section 4.6, `getC(key)`; (null, null+0) if the key
node does not exist. -/
def getC (t : Tree) (key : List Nat) (key_size : Nat) : (Gptr × TagGptr) × Tree :=
  let k := key.take key_size
  ((⟨node t k⟩, (slot t k).getD TagGptr.null), t)

/-- Modelled from the spec: section 4.6, `getC(key_gptr)`, the slot read by
address. -/
def getC_ptr (t : Tree) (key_ptr : Gptr) : TagGptr × Tree :=
  ((slotAt t key_ptr).getD TagGptr.null, t)

/-- Modelled from the spec: section 4.6, `destroyC` mirrors `destroy` and
exposes the key node address. -/
def destroyC (t : Tree) (key : List Nat) (key_size : Nat) (_old : TagGptr) :
    (Gptr × TagGptr) × TagGptr × Tree :=
  let k := key.take key_size
  let r := destroy t key key_size
  ((⟨node t k⟩, (slot r.2 k).getD TagGptr.null), r.1, r.2)

/-- Modelled from the spec: section 4.6, `destroyC` by node address. -/
def destroyC_ptr (t : Tree) (key_ptr : Gptr) (old : TagGptr) : TagGptr × TagGptr × Tree :=
  match slotAt t key_ptr with
  | none => (TagGptr.null, old, t)
  | some s =>
    if s.IsValid then
      (⟨⟨0⟩, s.version + 1⟩, s, setSlotAt t key_ptr ⟨⟨0⟩, s.version + 1⟩)
    else (s, s, t)

/-- Modelled from the spec: lexicographic order of raw bytes (invariant P5). -/
def keyLt : List Nat → List Nat → Bool
  | [], [] => false
  | [], _ :: _ => true
  | _ :: _, [] => false
  | a :: as, b :: bs => decide (a < b) || (a == b && keyLt as bs)

/-- Modelled from the spec: section 4.7, what an iterator captures: the range
with its inclusive and open flags, the current node (0 when exhausted) and the
current surfaced key and value. The traversal stack of the tree walk has no
counterpart in `Tree`. -/
structure Iter where
  begin_key : List Nat
  begin_key_inclusive : Bool
  begin_key_open : Bool
  end_key : List Nat
  end_key_inclusive : Bool
  end_key_open : Bool
  node : Gptr
  key : List Nat
  value : TagGptr
deriving DecidableEq, Repr

/-- Modelled from the spec: a default-constructed iterator. -/
def newIter : Iter := ⟨[], false, false, [], false, false, ⟨0⟩, [], TagGptr.null⟩

/-- Modelled from the spec: the key is at or after the lower bound. -/
def aboveBegin (it : Iter) (k : List Nat) : Bool :=
  it.begin_key_open || keyLt it.begin_key k || (it.begin_key_inclusive && it.begin_key == k)

/-- Modelled from the spec: the key does not exceed the upper bound. -/
def belowEnd (it : Iter) (k : List Nat) : Bool :=
  it.end_key_open || keyLt k it.end_key || (it.end_key_inclusive && k == it.end_key)

/-- Modelled from the spec: the least key, in byte order, among the key nodes
with a valid slot (tombstones are skipped) whose key satisfies `p`. -/
def least (t : Tree) (p : List Nat → Bool) : Option (List Nat × TagGptr) :=
  t.foldl (fun best e =>
    if e.2.IsValid && p e.1 then
      match best with
      | none => some e
      | some b => if keyLt e.1 b.1 then some e else some b
    else best) none

/-- Modelled from the spec: surfacing a candidate: it is checked against the end
key; past it the iterator is exhausted and -1 is returned. -/
def surface (t : Tree) (it : Iter) (key : List Nat) (key_size : Nat) (value : TagGptr)
    (c : Option (List Nat × TagGptr)) : IterResult Tree Iter :=
  match c with
  | none => ⟨-1, { it with node := ⟨0⟩ }, key, key_size, value, t⟩
  | some (k, s) =>
    if belowEnd it k then
      ⟨0, { it with node := ⟨node t k⟩, key := k, value := s }, k, k.length, s, t⟩
    else ⟨-1, { it with node := ⟨0⟩ }, key, key_size, value, t⟩

/-- Modelled from the spec: section 4.7, `scan`: the iterator captures the
range (a bound that is the single byte 0 and not inclusive is open) and is
positioned on the lower bound. -/
def scan (t : Tree) (_it : Iter) (key : List Nat) (key_size : Nat) (value : TagGptr)
    (begin_key : List Nat) (begin_key_size : Nat) (begin_key_inclusive : Bool)
    (end_key : List Nat) (end_key_size : Nat) (end_key_inclusive : Bool) :
    IterResult Tree Iter :=
  let bk := begin_key.take begin_key_size
  let ek := end_key.take end_key_size
  let it : Iter :=
    { begin_key := bk, begin_key_inclusive := begin_key_inclusive,
      begin_key_open := (bk == [0] && !begin_key_inclusive),
      end_key := ek, end_key_inclusive := end_key_inclusive,
      end_key_open := (ek == [0] && !end_key_inclusive),
      node := ⟨0⟩, key := [], value := TagGptr.null }
  surface t it key key_size value (least t (aboveBegin it))

/-- Modelled from the spec: section 4.7, `get_next`: the in-order successor of
the key surfaced last, -1 when the iterator is exhausted. -/
def get_next (t : Tree) (it : Iter) (key : List Nat) (key_size : Nat) (value : TagGptr) :
    IterResult Tree Iter :=
  if it.node.raw = 0 then ⟨-1, it, key, key_size, value, t⟩
  else surface t it key key_size value (least t (fun k => keyLt it.key k))

/-- Modelled from the spec: the radix tree of sections 4.3 to 4.7 as an
implementation of the interface of radix_tree.h. -/
def tree : RadixTree Tree Iter where
  newIter := newIter
  put := put
  get := get
  destroy := destroy
  scan := scan
  get_next := get_next
  putC := putC
  putC_ptr := putC_ptr
  getC := getC
  getC_ptr := getC_ptr
  destroyC := destroyC
  destroyC_ptr := destroyC_ptr

end Spec

/-! ## Sequences of facade operations -/

/-- One call of a facade operation on an open store, with its arguments (for a
reference parameter, the value on entry). -/
inductive Op where
  | Put (key : List Nat) (key_len : Nat) (val : Nat) (val_len : Nat)
  | Get (key : List Nat) (key_len : Nat) (val : Nat) (val_len : Nat)
  | Del (key : List Nat) (key_len : Nat)
  | Scan (iter_handle : Int) (key : List Nat) (key_len : Nat) (val : Nat) (val_len : Nat)
      (begin_key : List Nat) (begin_key_len : Nat) (begin_key_inclusive : Bool)
      (end_key : List Nat) (end_key_len : Nat) (end_key_inclusive : Bool)
  | GetNext (iter_handle : Int) (key : List Nat) (key_len : Nat) (val : Nat) (val_len : Nat)
  | Put_cache (key : List Nat) (key_len : Nat) (val : Nat) (val_len : Nat)
      (key_ptr : Gptr) (val_ptr : TagGptr)
  | Put_ptr (key_ptr : Gptr) (val_ptr : TagGptr) (val : Nat) (val_len : Nat)
  | Get_cache (key : List Nat) (key_len : Nat) (val : Nat) (val_len : Nat)
      (key_ptr : Gptr) (val_ptr : TagGptr)
  | Get_ptr (key_ptr : Gptr) (val_ptr : TagGptr) (val : Nat) (val_len : Nat) (get_value : Bool)
  | Del_cache (key : List Nat) (key_len : Nat) (key_ptr : Gptr) (val_ptr : TagGptr)
  | Del_ptr (key_ptr : Gptr) (val_ptr : TagGptr)
  | FindOrCreate (key : List Nat) (key_len : Nat) (val : Nat) (val_len : Nat)
      (ret_val : Nat) (ret_len : Nat)

/-- The store after one facade operation. -/
def step (t : RadixTree σ ι) (self : KVSRadixTreeTiny σ ι) : Op → KVSRadixTreeTiny σ ι
  | Op.Put key key_len val val_len => (Put t self key key_len val val_len).2
  | Op.Get key key_len val val_len => (Get t self key key_len val val_len).self
  | Op.Del key key_len => (Del t self key key_len).2
  | Op.Scan h key key_len val val_len bk bn bi ek en ei =>
    (Scan t self h key key_len val val_len bk bn bi ek en ei).self
  | Op.GetNext h key key_len val val_len => (GetNext t self h key key_len val val_len).self
  | Op.Put_cache key key_len val val_len kp vp =>
    (Put_cache t self key key_len val val_len kp vp).self
  | Op.Put_ptr kp vp val val_len => (Put_ptr t self kp vp val val_len).self
  | Op.Get_cache key key_len val val_len kp vp =>
    (Get_cache t self key key_len val val_len kp vp).self
  | Op.Get_ptr kp vp val val_len gv => (Get_ptr t self kp vp val val_len gv).self
  | Op.Del_cache key key_len kp vp => (Del_cache t self key key_len kp vp).self
  | Op.Del_ptr kp vp => (Del_ptr t self kp vp).self
  | Op.FindOrCreate key key_len val val_len rv rl =>
    (FindOrCreate t self key key_len val val_len rv rl).self

/-- The store after a sequence of facade operations. -/
def run (t : RadixTree σ ι) (self : KVSRadixTreeTiny σ ι) : List Op → KVSRadixTreeTiny σ ι
  | [] => self
  | op :: ops => run t (step t self op) ops

/-- A store freshly opened on the tree `tr`: no iterator yet. -/
def opened (tr : σ) : KVSRadixTreeTiny σ ι := ⟨tr, [], []⟩

/-- The store `self` over the logging tree, with the calls recorded so far. -/
def KVSRadixTreeTiny.withLog (self : KVSRadixTreeTiny σ ι) (log : List Call) :
    KVSRadixTreeTiny (σ × List Call) ι :=
  ⟨(self.tree_, log), self.iters_, self.iterHeap⟩

/-- Modelled from the spec: the tree of `Spec.tree` on a heap whose every
allocation fails after all retries (section 4.3, allocation retry): an insert
that needs a new key node fails with out-of-space and stores nothing; a put on
an existing key node allocates nothing and goes through. -/
def Spec.exhausted : RadixTree Spec.Tree Spec.Iter :=
  { Spec.tree with
    put := fun t key key_size value update =>
      match Spec.slot t (key.take key_size) with
      | none => (TagGptr.null, t)
      | some _ => Spec.put t key key_size value update
    putC := fun t key key_size value old =>
      match Spec.slot t (key.take key_size) with
      | none => ((⟨0⟩, TagGptr.null), old, t)
      | some _ => Spec.putC t key key_size value old }

/-! ## Concrete stores -/

/-- The empty store over the tree of the specification. -/
def emptyStore : KVSRadixTreeTiny Spec.Tree Spec.Iter := opened []

/-- The key "x" put with value 1 through the caching interface, deleted, and put
again with the same value: the slot holds gptr 1 at version 3, and a client that
cached the first put holds key pointer 1 and the tagged pointer (1, version 1). -/
def reinserted : KVSRadixTreeTiny Spec.Tree Spec.Iter :=
  run Spec.tree emptyStore
    [Op.Put_cache [120] 1 1 8 ⟨0⟩ TagGptr.null,
     Op.Del_cache [120] 1 ⟨0⟩ TagGptr.null,
     Op.Put_cache [120] 1 1 8 ⟨0⟩ TagGptr.null]

/-- The store in which the key "a" holds the value 5. -/
def storeA5 : KVSRadixTreeTiny Spec.Tree Spec.Iter :=
  run Spec.tree emptyStore [Op.Put [97] 1 5 8]

/-- A store whose handle table holds 2^31 iterators (the addresses 0 to
2^31 - 1 of as many iterator objects), over a tree that holds the key "a". -/
def fullTable : KVSRadixTreeTiny Spec.Tree Spec.Iter :=
  ⟨[([97], ⟨⟨7⟩, 1⟩)], List.range 2147483648, List.replicate 2147483648 Spec.newIter⟩

/-- A store whose handle table holds 2^31 - 1 iterators, over a tree that holds
the key "a". -/
def almostFullTable : KVSRadixTreeTiny Spec.Tree Spec.Iter :=
  ⟨[([97], ⟨⟨7⟩, 1⟩)], List.range 2147483647, List.replicate 2147483647 Spec.newIter⟩

/-! ## Put: limits and the single call of the tree -/

/-- C1: the facade Put, and likewise the cache-consistent Put, returns -1 exactly
when key_len > 40 or val_len > 8, and then the store (the tree included) and the
reference parameters are unchanged and the tree is not called; in every other
case it returns 0 after exactly one call of the tree on the given key and value:
put with the UPDATE flag for the plain Put, putC for the cache-consistent one. -/
theorem Put_limits (t : RadixTree σ ι) (self : KVSRadixTreeTiny σ ι)
    (key : List Nat) (key_len val val_len : Nat) (key_ptr : Gptr) (val_ptr : TagGptr)
    (log : List Call) :
    ((Put t self key key_len val val_len).1 = -1 ↔ (key_len > 40 ∨ val_len > 8)) ∧
    ((Put t self key key_len val val_len).1 = 0 ↔ ¬ (key_len > 40 ∨ val_len > 8)) ∧
    Put t self key key_len val val_len =
      (if key_len > 40 ∨ val_len > 8 then (-1, self)
       else (0, { self with
          tree_ := (t.put self.tree_ key key_len ⟨val⟩ UpdateFlags.UPDATE).2 })) ∧
    (Put t.logged (self.withLog log) key key_len val val_len).2.tree_.2 =
      (if key_len > 40 ∨ val_len > 8 then log
       else log ++ [Call.put key key_len ⟨val⟩ UpdateFlags.UPDATE]) ∧
    ((Put_cache t self key key_len val val_len key_ptr val_ptr).ret = -1 ↔
      (key_len > 40 ∨ val_len > 8)) ∧
    ((Put_cache t self key key_len val val_len key_ptr val_ptr).ret = 0 ↔
      ¬ (key_len > 40 ∨ val_len > 8)) ∧
    Put_cache t self key key_len val val_len key_ptr val_ptr =
      (if key_len > 40 ∨ val_len > 8 then ⟨-1, key_ptr, val_ptr, self⟩
       else ⟨0, (t.putC self.tree_ key key_len ⟨val⟩ TagGptr.null).1.1,
          (t.putC self.tree_ key key_len ⟨val⟩ TagGptr.null).1.2,
          { self with tree_ := (t.putC self.tree_ key key_len ⟨val⟩ TagGptr.null).2.2 }⟩) ∧
    (Put_cache t.logged (self.withLog log) key key_len val val_len key_ptr val_ptr).self.tree_.2 =
      (if key_len > 40 ∨ val_len > 8 then log else log ++ [Call.putC key key_len ⟨val⟩]) := by
  unfold Put Put_cache kMaxKeyLen kMaxValLen CHAR2UINT64_CONST
  by_cases hk : key_len > 40
  · simp [hk, KVSRadixTreeTiny.withLog]
  · by_cases hv : val_len > 8
    · simp [hk, hv, KVSRadixTreeTiny.withLog]
    · simp [hk, hv, KVSRadixTreeTiny.withLog, RadixTree.logged]

/-! ## Get and Del: return codes -/

/-- C2: the plain Get returns -1 exactly when key_len > 40, without calling the
tree; for key_len <= 40 it returns -2 exactly when the tagged pointer returned by
the tree's get is invalid (gptr = 0) and 0 otherwise, the word written to val is
the gptr of that tagged pointer and val_len is 8. The plain Del returns -1
exactly when key_len > 40, without calling the tree, and otherwise -2 exactly
when the tree's destroy returns an invalid tagged pointer and 0 exactly when it
returns a valid one. -/
theorem Get_Del_codes (t : RadixTree σ ι) (self : KVSRadixTreeTiny σ ι)
    (key : List Nat) (key_len val val_len : Nat) (log : List Call) :
    let g := Get t self key key_len val val_len
    let d := Del t self key key_len
    let got := t.get self.tree_ key key_len
    let old := t.destroy self.tree_ key key_len
    (g.ret = -1 ↔ key_len > 40) ∧
    (g.ret = -2 ↔ key_len ≤ 40 ∧ got.1.gptr.raw = 0) ∧
    (g.ret = 0 ↔ key_len ≤ 40 ∧ got.1.gptr.raw ≠ 0) ∧
    g = (if key_len > 40 then ⟨-1, val, val_len, self⟩
         else ⟨if got.1.gptr.raw = 0 then -2 else 0, got.1.gptr.raw, 8,
            { self with tree_ := got.2 }⟩) ∧
    (Get t.logged (self.withLog log) key key_len val val_len).self.tree_.2 =
      (if key_len > 40 then log else log ++ [Call.get key key_len]) ∧
    (d.1 = -1 ↔ key_len > 40) ∧
    (d.1 = -2 ↔ key_len ≤ 40 ∧ old.1.gptr.raw = 0) ∧
    (d.1 = 0 ↔ key_len ≤ 40 ∧ old.1.gptr.raw ≠ 0) ∧
    d = (if key_len > 40 then (-1, self)
         else (if old.1.gptr.raw = 0 then -2 else 0, { self with tree_ := old.2 })) ∧
    (Del t.logged (self.withLog log) key key_len).2.tree_.2 =
      (if key_len > 40 then log else log ++ [Call.destroy key key_len]) := by
  intro g d got old
  simp only [g, d, got, old]
  unfold Get Del kMaxKeyLen kMaxValLen TagGptr.IsValid Gptr.IsValid TagGptr.gptr_nomark
  by_cases hk : key_len > 40
  · simp [hk, KVSRadixTreeTiny.withLog]
  · have hk2 : key_len ≤ 40 := by omega
    by_cases hg : (t.get self.tree_ key key_len).1.gptr.raw = 0 <;>
    by_cases hd : (t.destroy self.tree_ key key_len).1.gptr.raw = 0 <;>
    simp [hk, hk2, hg, hd, KVSRadixTreeTiny.withLog, RadixTree.logged]

/-! ## Revalidation of a cached pointer -/

/-- C6: Get by key pointer always returns 0 after exactly one call of the tree's
getC(key_ptr), and on return val_ptr equals the tagged pointer that call
returned. When the cached val_ptr equals it in both gptr and version and
get_value is false, val and val_len keep their values; otherwise val receives
the current gptr and val_len is 8. val and val_len are left alone for every
content exactly in the first case. In particular a cached pointer that differs
from the current one only in its version is refreshed. -/
theorem Get_ptr_revalidates (t : RadixTree σ ι) (self : KVSRadixTreeTiny σ ι)
    (key_ptr : Gptr) (val_ptr : TagGptr) (val val_len : Nat) (get_value : Bool)
    (log : List Call) :
    let cur := (t.getC_ptr self.tree_ key_ptr).1
    let r := Get_ptr t self key_ptr val_ptr val val_len get_value
    r.ret = 0 ∧ r.val_ptr = cur ∧ r.key_ptr = key_ptr ∧
    r.self = { self with tree_ := (t.getC_ptr self.tree_ key_ptr).2 } ∧
    (Get_ptr t.logged (self.withLog log) key_ptr val_ptr val val_len get_value).self.tree_.2 =
      log ++ [Call.getC_ptr key_ptr] ∧
    (if val_ptr.gptr = cur.gptr ∧ val_ptr.version = cur.version ∧ get_value = false
      then r.val = val ∧ r.val_len = val_len
      else r.val = cur.gptr.raw ∧ r.val_len = 8) ∧
    ((val_ptr.gptr = cur.gptr ∧ val_ptr.version = cur.version ∧ get_value = false) ↔
      ∀ v vl : Nat, (Get_ptr t self key_ptr val_ptr v vl get_value).val = v ∧
        (Get_ptr t self key_ptr val_ptr v vl get_value).val_len = vl) ∧
    (val_ptr.gptr = cur.gptr ∧ val_ptr.version ≠ cur.version →
      r.val_ptr = cur ∧ r.val = cur.gptr.raw ∧ r.val_len = 8) := by
  intro cur r
  have hcond : (cur = val_ptr) ↔ (val_ptr.gptr = cur.gptr ∧ val_ptr.version = cur.version) := by
    constructor
    · intro h
      rw [h]
      exact ⟨rfl, rfl⟩
    · intro h
      cases hv : val_ptr
      cases hc : cur
      rw [hv, hc] at h
      simp only [TagGptr.mk.injEq]
      exact ⟨h.1.symm, h.2.symm⟩
  by_cases hc : cur = val_ptr ∧ get_value = false
  · have h1 : val_ptr.gptr = cur.gptr ∧ val_ptr.version = cur.version ∧ get_value = false :=
      ⟨(hcond.1 hc.1).1, (hcond.1 hc.1).2, hc.2⟩
    have hr : ∀ v vl, Get_ptr t self key_ptr val_ptr v vl get_value =
        ⟨0, v, vl, key_ptr, val_ptr, { self with tree_ := (t.getC_ptr self.tree_ key_ptr).2 }⟩ := by
      intro v vl
      unfold Get_ptr
      simp only [cur] at hc
      simp [hc]
    refine ⟨?_, ?_, ?_, ?_, ?_, ?_, ?_, ?_⟩
    · simp [r, hr]
    · simp [r, hr, hc.1]
    · simp [r, hr]
    · simp [r, hr]
    · unfold Get_ptr
      simp [KVSRadixTreeTiny.withLog, RadixTree.logged]
      split_ifs <;> rfl
    · rw [if_pos h1]
      simp [r, hr]
    · constructor
      · intro _ v vl
        simp [hr]
      · intro _
        exact h1
    · intro h
      exact absurd h1.2.1 h.2
  · have h1 : ¬ (val_ptr.gptr = cur.gptr ∧ val_ptr.version = cur.version ∧ get_value = false) := by
      intro h
      exact hc ⟨hcond.2 ⟨h.1, h.2.1⟩, h.2.2⟩
    have hr : ∀ v vl, Get_ptr t self key_ptr val_ptr v vl get_value =
        ⟨0, cur.gptr.raw, 8, key_ptr, cur,
          { self with tree_ := (t.getC_ptr self.tree_ key_ptr).2 }⟩ := by
      intro v vl
      unfold Get_ptr
      simp only [cur] at hc
      simp [hc, TagGptr.gptr_nomark, kMaxValLen, cur]
    refine ⟨?_, ?_, ?_, ?_, ?_, ?_, ?_, ?_⟩
    · simp [r, hr]
    · simp [r, hr]
    · simp [r, hr]
    · simp [r, hr]
    · unfold Get_ptr
      simp [KVSRadixTreeTiny.withLog, RadixTree.logged]
      split_ifs <;> rfl
    · rw [if_neg h1]
      simp [r, hr]
    · constructor
      · intro h
        exact absurd h h1
      · intro h
        have h9 := (h 0 9).2
        rw [hr] at h9
        simp at h9
    · intro _
      simp [r, hr]

/-- Witness of C6 on the tree of the specification: the cached pointer (1,
version 1) has the gptr of the current slot (1, version 3) and another version,
and Get by key pointer refreshes it. -/
theorem Get_ptr_revalidates_witness :
    ((⟨⟨1⟩, 1⟩ : TagGptr).gptr = (Spec.tree.getC_ptr reinserted.tree_ ⟨1⟩).1.gptr ∧
      (⟨⟨1⟩, 1⟩ : TagGptr).version ≠ (Spec.tree.getC_ptr reinserted.tree_ ⟨1⟩).1.version) ∧
    (Get_ptr Spec.tree reinserted ⟨1⟩ ⟨⟨1⟩, 1⟩ 0 0 false).val_ptr = ⟨⟨1⟩, 3⟩ ∧
    (Get_ptr Spec.tree reinserted ⟨1⟩ ⟨⟨1⟩, 1⟩ 0 0 false).val = 1 ∧
    (Get_ptr Spec.tree reinserted ⟨1⟩ ⟨⟨1⟩, 1⟩ 0 0 false).val_len = 8 :=
  ⟨by decide,
   (Get_ptr_revalidates Spec.tree reinserted ⟨1⟩ ⟨⟨1⟩, 1⟩ 0 0 false []).2.2.2.2.2.2.2
     (by decide)⟩

/-! ## Out of space -/

/-- C7, as stated, fails: on a heap with no space left the tree's put of a new
key stores nothing, and the facade Put still returns 0. -/
theorem Put_out_of_space_returns_zero :
    (Spec.exhausted.put emptyStore.tree_ [97] 1 ⟨7⟩ UpdateFlags.UPDATE).2 = emptyStore.tree_ ∧
    (Put Spec.exhausted emptyStore [97] 1 7 8).2.tree_ = [] ∧
    ¬ ((Put Spec.exhausted emptyStore [97] 1 7 8).1 ≠ 0) := by
  decide

/-- C7, amended: for every key with key_len <= 40 and val_len <= 8, when the
tree's put stores nothing (it leaves the tree as it was), the facade Put returns
0 with the store unchanged: the facade has no failure code for out-of-space. -/
theorem Put_ignores_out_of_space (t : RadixTree σ ι) (self : KVSRadixTreeTiny σ ι)
    (key : List Nat) (key_len val val_len : Nat)
    (hk : key_len ≤ 40) (hv : val_len ≤ 8)
    (hfull : (t.put self.tree_ key key_len ⟨val⟩ UpdateFlags.UPDATE).2 = self.tree_) :
    Put t self key key_len val val_len = (0, self) := by
  unfold Put kMaxKeyLen kMaxValLen CHAR2UINT64_CONST
  have hk2 : ¬ key_len > 40 := by omega
  have hv2 : ¬ val_len > 8 := by omega
  simp only [hk2, hv2, if_false, hfull]

/-- Witness of the amended C7 on the exhausted heap. -/
theorem Put_ignores_out_of_space_witness :
    Put Spec.exhausted emptyStore [97] 1 7 8 = (0, emptyStore) :=
  Put_ignores_out_of_space Spec.exhausted emptyStore [97] 1 7 8 (by decide) (by decide)
    (by decide)

/-! ## The cache-consistent Get by key -/

/-- C8, as stated, fails: for a key without key node the tree's getC yields a
null key pointer, the cache-consistent Get returns 0 and the plain Get -2; the
same after a delete, when the slot is a tombstone. -/
theorem Get_cache_not_found_returns_zero :
    (Spec.tree.getC emptyStore.tree_ [97] 1).1.1 = ⟨0⟩ ∧
    (Get_cache Spec.tree emptyStore [97] 1 0 0 ⟨0⟩ TagGptr.null).ret = 0 ∧
    (Get Spec.tree emptyStore [97] 1 0 0).ret = -2 ∧
    (Spec.tree.getC (Del Spec.tree storeA5 [97] 1).2.tree_ [97] 1).1.2.IsValid = false ∧
    (Get_cache Spec.tree (Del Spec.tree storeA5 [97] 1).2 [97] 1 0 0 ⟨0⟩ TagGptr.null).ret = 0 ∧
    (Get Spec.tree (Del Spec.tree storeA5 [97] 1).2 [97] 1 0 0).ret = -2 := by
  decide

/-- C8, amended: the cache-consistent Get by key never returns -2. It returns -1
exactly when key_len > 40 (nothing is changed) and 0 for every key_len <= 40,
found or not: key_ptr and val_ptr receive the pair of the tree's getC(key), and
val and val_len are written (the gptr, and 8) only when both are valid and are
left as they were otherwise. So the plain Get and the cache-consistent Get return
the same code exactly when key_len > 40 or the tree's get finds a valid value. -/
theorem Get_cache_codes (t : RadixTree σ ι) (self : KVSRadixTreeTiny σ ι)
    (key : List Nat) (key_len val val_len : Nat) (key_ptr : Gptr) (val_ptr : TagGptr) :
    let r := Get_cache t self key key_len val val_len key_ptr val_ptr
    let kv := t.getC self.tree_ key key_len
    (r.ret = -1 ↔ key_len > 40) ∧ (r.ret = 0 ↔ key_len ≤ 40) ∧ r.ret ≠ -2 ∧
    r = (if key_len > 40 then ⟨-1, val, val_len, key_ptr, val_ptr, self⟩
         else if kv.1.1.raw ≠ 0 ∧ kv.1.2.gptr.raw ≠ 0 then
           ⟨0, kv.1.2.gptr.raw, 8, kv.1.1, kv.1.2, { self with tree_ := kv.2 }⟩
         else ⟨0, val, val_len, kv.1.1, kv.1.2, { self with tree_ := kv.2 }⟩) ∧
    ((Get t self key key_len val val_len).ret = r.ret ↔
      (key_len > 40 ∨ (t.get self.tree_ key key_len).1.gptr.raw ≠ 0)) := by
  intro r kv
  simp only [r, kv]
  unfold Get_cache Get kMaxKeyLen kMaxValLen TagGptr.IsValid Gptr.IsValid TagGptr.gptr_nomark
  by_cases hk : key_len > 40
  · simp [hk]
  · have hk2 : key_len ≤ 40 := by omega
    by_cases h1 : (t.getC self.tree_ key key_len).1.1.raw = 0 <;>
    by_cases h2 : (t.getC self.tree_ key key_len).1.2.gptr.raw = 0 <;>
    by_cases h3 : (t.get self.tree_ key key_len).1.gptr.raw = 0 <;>
    simp [hk, hk2, h1, h2, h3]

/-! ## FindOrCreate -/

/-- C9, the code at the failing inputs: FindOrCreate of the absent key "a" with
value 7 returns 0 and stores nothing, the key is still not found; FindOrCreate
of the present key "a" (value 5) returns 0 and leaves ret_val and ret_len as
they were instead of giving back the existing value with ret_len = 8. For every
tree and store the call returns 0 with nothing changed and the tree not called. -/
theorem FindOrCreate_does_nothing :
    (FindOrCreate Spec.tree emptyStore [97] 1 7 8 0 0).ret = 0 ∧
    (FindOrCreate Spec.tree emptyStore [97] 1 7 8 0 0).self.tree_ = [] ∧
    (Get Spec.tree (FindOrCreate Spec.tree emptyStore [97] 1 7 8 0 0).self [97] 1 0 0).ret = -2 ∧
    (Get Spec.tree storeA5 [97] 1 0 0).val = 5 ∧
    (FindOrCreate Spec.tree storeA5 [97] 1 9 8 0 0).ret = 0 ∧
    (FindOrCreate Spec.tree storeA5 [97] 1 9 8 0 0).val = 0 ∧
    (FindOrCreate Spec.tree storeA5 [97] 1 9 8 0 0).val_len = 0 ∧
    (∀ (t : RadixTree Spec.Tree Spec.Iter) (self : KVSRadixTreeTiny Spec.Tree Spec.Iter)
      (key : List Nat) (key_len val val_len ret_val ret_len : Nat) (log : List Call),
      FindOrCreate t self key key_len val val_len ret_val ret_len = ⟨0, ret_val, ret_len, self⟩ ∧
      (FindOrCreate t.logged (self.withLog log) key key_len val val_len
        ret_val ret_len).self.tree_.2 = log) := by
  refine ⟨by decide, by decide, by decide, by decide, by decide, by decide, by decide, ?_⟩
  intro t self key key_len val val_len ret_val ret_len log
  exact ⟨rfl, rfl⟩

/-! ## Round trip through the facade -/

theorem Spec.slot_setSlot (t : Spec.Tree) (k : List Nat) (s : TagGptr) :
    Spec.slot (Spec.setSlot t k s) k = some s := by
  induction t with
  | nil => simp [Spec.setSlot, Spec.slot]
  | cons e rest ih =>
    obtain ⟨k1, s1⟩ := e
    by_cases h : k1 = k
    · simp [Spec.setSlot, Spec.slot, h]
    · simp [Spec.setSlot, Spec.slot, h, ih]

theorem Spec.put_update_slot (t : Spec.Tree) (key : List Nat) (n : Nat) (v : Gptr) :
    ∃ ver, Spec.slot (Spec.put t key n v UpdateFlags.UPDATE).2 (key.take n) = some ⟨v, ver⟩ := by
  unfold Spec.put
  cases h : Spec.slot t (key.take n) with
  | none => exact ⟨1, by simp [h, Spec.slot_setSlot]⟩
  | some s => exact ⟨s.version + 1, by simp [h, Spec.slot_setSlot]⟩

/-- C3, as stated, fails for the all-zero value: Put of the value 0 under the
key "a" returns 0, and the following Get returns -2 instead of 0, because the
stored gptr 0 is the null pointer. -/
theorem roundtrip_zero_value_not_found :
    (Put Spec.tree emptyStore [97] 1 0 8).1 = 0 ∧
    (Get Spec.tree (Put Spec.tree emptyStore [97] 1 0 8).2 [97] 1 0 0).ret = -2 ∧
    ¬ ((Get Spec.tree (Put Spec.tree emptyStore [97] 1 0 8).2 [97] 1 0 0).ret = 0) := by
  decide

/-- C3, amended: on the tree of the specification, for every key of at most 40
bytes and every non-zero 8-byte value v, Put(k, v) returns 0, a following Get(k)
returns 0 and yields exactly v with val_len = 8, the following Del(k) returns 0,
and the Get(k) after it returns -2. -/
theorem roundtrip_nonzero (self : KVSRadixTreeTiny Spec.Tree Spec.Iter)
    (key : List Nat) (key_len v val_len val0 len0 : Nat)
    (hk : key_len ≤ 40) (hl : val_len ≤ 8) (hv : v ≠ 0) :
    let p := Put Spec.tree self key key_len v val_len
    let g := Get Spec.tree p.2 key key_len val0 len0
    let d := Del Spec.tree g.self key key_len
    let g2 := Get Spec.tree d.2 key key_len val0 len0
    p.1 = 0 ∧ g.ret = 0 ∧ g.val = v ∧ g.val_len = 8 ∧ d.1 = 0 ∧ g2.ret = -2 := by
  intro p g d g2
  have hk2 : ¬ key_len > 40 := by omega
  have hl2 : ¬ val_len > 8 := by omega
  obtain ⟨ver, hver⟩ := Spec.put_update_slot self.tree_ key key_len ⟨v⟩
  have hp : p = (0, { self with
      tree_ := (Spec.put self.tree_ key key_len ⟨v⟩ UpdateFlags.UPDATE).2 }) := by
    simp only [p]
    unfold Put kMaxKeyLen kMaxValLen CHAR2UINT64_CONST
    simp only [hk2, hl2, if_false]
    rfl
  have hg : g = ⟨0, v, 8, p.2⟩ := by
    simp only [g]
    unfold Get kMaxKeyLen kMaxValLen
    simp only [hk2, if_false]
    simp [hp, Spec.tree, Spec.get, hver, TagGptr.IsValid, Gptr.IsValid, TagGptr.gptr_nomark, hv]
  have hd : d = (0, { self with
      tree_ := (Spec.setSlot (Spec.put self.tree_ key key_len ⟨v⟩ UpdateFlags.UPDATE).2
        (key.take key_len) ⟨⟨0⟩, ver + 1⟩) }) := by
    simp only [d]
    unfold Del kMaxKeyLen
    simp only [hk2, if_false]
    simp [hg, hp, Spec.tree, Spec.destroy, hver, TagGptr.IsValid, Gptr.IsValid, hv]
  have hg2 : g2.ret = -2 := by
    simp only [g2]
    unfold Get kMaxKeyLen kMaxValLen
    simp only [hk2, if_false]
    simp [hd, Spec.tree, Spec.get, Spec.slot_setSlot, TagGptr.IsValid, Gptr.IsValid]
  refine ⟨?_, ?_, ?_, ?_, ?_, hg2⟩
  · rw [hp]
  · rw [hg]
  · rw [hg]
  · rw [hg]
  · rw [hd]

/-- Witness of the amended C3: the key "ab" and the value 7 on the empty store. -/
theorem roundtrip_nonzero_witness :
    (Put Spec.tree emptyStore [97, 98] 2 7 8).1 = 0 ∧
    (Get Spec.tree (Put Spec.tree emptyStore [97, 98] 2 7 8).2 [97, 98] 2 0 0).ret = 0 ∧
    (Get Spec.tree (Put Spec.tree emptyStore [97, 98] 2 7 8).2 [97, 98] 2 0 0).val = 7 :=
  have h := roundtrip_nonzero emptyStore [97, 98] 2 7 8 0 0 (by decide) (by decide) (by decide)
  ⟨h.1, h.2.1, h.2.2.1⟩

/-! ## Scan and the handle table -/

theorem castInt_of_lt (n : Nat) (h : n < 2147483648) : castInt n = (n : Int) := by
  unfold castInt
  have h1 : n % 2 ^ 32 = n := Nat.mod_eq_of_lt (by omega)
  rw [h1]
  simp only [Nat.reducePow]
  rw [if_pos h]

theorem castInt_le (n : Nat) : castInt n ≤ (n : Int) := by
  unfold castInt
  have h1 : n % 2 ^ 32 ≤ n := Nat.mod_le _ _
  split_ifs <;> omega

theorem fullTable_length : fullTable.iters_.length = 2147483648 := by
  simp only [fullTable, List.length_range]

theorem almostFullTable_length : almostFullTable.iters_.length = 2147483647 := by
  simp only [almostFullTable, List.length_range]

theorem Scan_of_tree_ok (t : RadixTree σ ι) (self : KVSRadixTreeTiny σ ι)
    (h : Int) (key : List Nat) (key_len val val_len : Nat)
    (bk : List Nat) (bn : Nat) (bi : Bool) (ek : List Nat) (en : Nat) (ei : Bool)
    (hb : bn ≤ 40) (he : en ≤ 40) (hk : key_len ≤ 40) (hv : val_len ≤ 8)
    (hr : (t.scan self.tree_ t.newIter key key_len TagGptr.null bk bn bi ek en ei).ret = 0) :
    Scan t self h key key_len val val_len bk bn bi ek en ei =
      ⟨0, castInt self.iters_.length,
        (t.scan self.tree_ t.newIter key key_len TagGptr.null bk bn bi ek en ei).key,
        (t.scan self.tree_ t.newIter key key_len TagGptr.null bk bn bi ek en ei).key_size,
        (t.scan self.tree_ t.newIter key key_len TagGptr.null bk bn bi ek en ei).value.gptr.raw,
        8,
        ⟨(t.scan self.tree_ t.newIter key key_len TagGptr.null bk bn bi ek en ei).tree,
          self.iters_ ++ [self.iterHeap.length],
          self.iterHeap ++
            [(t.scan self.tree_ t.newIter key key_len TagGptr.null bk bn bi ek en ei).iter]⟩⟩ := by
  unfold Scan kMaxKeyLen kMaxValLen TagGptr.gptr_nomark
  have hb2 : ¬ bn > 40 := by omega
  have he2 : ¬ en > 40 := by omega
  have hk2 : ¬ key_len > 40 := by omega
  have hv2 : ¬ val_len > 8 := by omega
  simp [hb2, he2, hk2, hv2, hr]

theorem Scan_of_tree_fail (t : RadixTree σ ι) (self : KVSRadixTreeTiny σ ι)
    (h : Int) (key : List Nat) (key_len val val_len : Nat)
    (bk : List Nat) (bn : Nat) (bi : Bool) (ek : List Nat) (en : Nat) (ei : Bool)
    (hb : bn ≤ 40) (he : en ≤ 40) (hk : key_len ≤ 40) (hv : val_len ≤ 8)
    (hr : (t.scan self.tree_ t.newIter key key_len TagGptr.null bk bn bi ek en ei).ret ≠ 0) :
    Scan t self h key key_len val val_len bk bn bi ek en ei =
      ⟨-2, h,
        (t.scan self.tree_ t.newIter key key_len TagGptr.null bk bn bi ek en ei).key,
        (t.scan self.tree_ t.newIter key key_len TagGptr.null bk bn bi ek en ei).key_size,
        val, val_len,
        ⟨(t.scan self.tree_ t.newIter key key_len TagGptr.null bk bn bi ek en ei).tree,
          self.iters_,
          self.iterHeap ++
            [(t.scan self.tree_ t.newIter key key_len TagGptr.null bk bn bi ek en ei).iter]⟩⟩ := by
  unfold Scan kMaxKeyLen kMaxValLen
  have hb2 : ¬ bn > 40 := by omega
  have he2 : ¬ en > 40 := by omega
  have hk2 : ¬ key_len > 40 := by omega
  have hv2 : ¬ val_len > 8 := by omega
  simp [hb2, he2, hk2, hv2, hr]

theorem Scan_of_limit (t : RadixTree σ ι) (self : KVSRadixTreeTiny σ ι)
    (h : Int) (key : List Nat) (key_len val val_len : Nat)
    (bk : List Nat) (bn : Nat) (bi : Bool) (ek : List Nat) (en : Nat) (ei : Bool)
    (hl : bn > 40 ∨ en > 40 ∨ key_len > 40 ∨ val_len > 8) :
    Scan t self h key key_len val val_len bk bn bi ek en ei =
      ⟨-1, h, key, key_len, val, val_len, self⟩ := by
  unfold Scan kMaxKeyLen kMaxValLen
  by_cases h1 : bn > 40 ∨ en > 40
  · simp [h1]
  · by_cases h2 : key_len > 40
    · simp [h1, h2]
    · have h3 : val_len > 8 := by
        rcases hl with h | h | h | h
        · exact absurd (Or.inl h) h1
        · exact absurd (Or.inr h) h1
        · exact absurd h h2
        · exact h
      simp [h1, h2, h3]

/-- C4, as stated, fails when the table already holds 2^31 iterators: the tree
scan succeeds, the facade Scan returns 0 and appends the iterator, but the
handle it sets is -2147483648 and not the index 2147483648 of the new entry. -/
theorem Scan_handle_wraps :
    fullTable.iters_.length = 2147483648 ∧
    (Scan Spec.tree fullTable 0 [] 0 0 0 [0] 1 false [0] 1 false).ret = 0 ∧
    (Scan Spec.tree fullTable 0 [] 0 0 0 [0] 1 false [0] 1 false).iter_handle = -2147483648 ∧
    (Scan Spec.tree fullTable 0 [] 0 0 0 [0] 1 false [0] 1 false).iter_handle ≠
      (fullTable.iters_.length : Int) := by
  have hs := Scan_of_tree_ok Spec.tree fullTable 0 [] 0 0 0 [0] 1 false [0] 1 false
    (by decide) (by decide) (by decide) (by decide) (by decide)
  have hc : castInt 2147483648 = -2147483648 := by decide
  rw [hs, fullTable_length, hc]
  exact ⟨rfl, rfl, rfl, by decide⟩

/-- C4, amended: a facade Scan returns 0 exactly when the limits hold and the
tree scan returns 0; it then appends exactly one iterator (the new one) to the
table of n entries, sets iter_handle to (int) n, which is n whenever n < 2^31,
and writes the surfaced value's gptr to val with val_len = 8. A Scan that
returns -1 (exactly on a limit violation) or -2 (exactly when the limits hold
and the tree scan reports no key in range) leaves the table and iter_handle
unchanged. -/
theorem Scan_handle_is_index (t : RadixTree σ ι) (self : KVSRadixTreeTiny σ ι)
    (h : Int) (key : List Nat) (key_len val val_len : Nat)
    (bk : List Nat) (bn : Nat) (bi : Bool) (ek : List Nat) (en : Nat) (ei : Bool) :
    let r := Scan t self h key key_len val val_len bk bn bi ek en ei
    let tr := t.scan self.tree_ t.newIter key key_len TagGptr.null bk bn bi ek en ei
    (r.ret = -1 ↔ (bn > 40 ∨ en > 40 ∨ key_len > 40 ∨ val_len > 8)) ∧
    (r.ret = 0 ↔ (bn ≤ 40 ∧ en ≤ 40 ∧ key_len ≤ 40 ∧ val_len ≤ 8 ∧ tr.ret = 0)) ∧
    (r.ret = -2 ↔ (bn ≤ 40 ∧ en ≤ 40 ∧ key_len ≤ 40 ∧ val_len ≤ 8 ∧ tr.ret ≠ 0)) ∧
    (if r.ret = 0 then
        r.self.iters_ = self.iters_ ++ [self.iterHeap.length] ∧
        r.self.iters_.length = self.iters_.length + 1 ∧
        r.self.iterHeap.get? self.iterHeap.length = some tr.iter ∧
        r.iter_handle = castInt self.iters_.length ∧
        r.val = tr.value.gptr.raw ∧ r.val_len = 8
      else r.self.iters_ = self.iters_ ∧ r.iter_handle = h) ∧
    (self.iters_.length < 2147483648 → r.ret = 0 →
      r.iter_handle = (self.iters_.length : Int)) := by
  intro r tr
  by_cases hl : bn > 40 ∨ en > 40 ∨ key_len > 40 ∨ val_len > 8
  · have hr : r = ⟨-1, h, key, key_len, val, val_len, self⟩ :=
      Scan_of_limit t self h key key_len val val_len bk bn bi ek en ei hl
    rw [hr]
    refine ⟨by simp [hl], ?_, ?_, by simp, by simp⟩
    · simp only [Int.reduceNeg, Int.reduceEq, false_iff, not_and]
      intro h1 h2 h3 h4
      omega
    · simp only [Int.reduceNeg, Int.reduceEq, false_iff, not_and]
      intro h1 h2 h3 h4
      omega
  · have hb : bn ≤ 40 := by omega
    have he : en ≤ 40 := by omega
    have hk : key_len ≤ 40 := by omega
    have hv : val_len ≤ 8 := by omega
    by_cases ht : (t.scan self.tree_ t.newIter key key_len TagGptr.null bk bn bi ek en ei).ret = 0
    · have hr := Scan_of_tree_ok t self h key key_len val val_len bk bn bi ek en ei
        hb he hk hv ht
      simp only [r, tr, hr]
      refine ⟨by simp [hl], by simp [hb, he, hk, hv, ht], by simp [ht], ?_, ?_⟩
      · simp
      · intro hn _
        exact castInt_of_lt _ hn
    · have hr := Scan_of_tree_fail t self h key key_len val val_len bk bn bi ek en ei
        hb he hk hv ht
      simp only [r, tr, hr]
      refine ⟨by simp [hl], by simp [ht], by simp [hb, he, hk, hv, ht], by simp, by simp⟩

/-- Witness of the amended C4: a successful Scan on the store that holds the key
"a" and no iterator yet sets the handle 0. -/
theorem Scan_handle_is_index_witness :
    (Scan Spec.tree storeA5 7 [] 0 0 0 [0] 1 false [0] 1 false).ret = 0 ∧
    (Scan Spec.tree storeA5 7 [] 0 0 0 [0] 1 false [0] 1 false).iter_handle =
      (storeA5.iters_.length : Int) :=
  ⟨by decide,
   (Scan_handle_is_index Spec.tree storeA5 7 [] 0 0 0 [0] 1 false [0] 1 false).2.2.2.2
     (by decide) (by decide)⟩

/-! ## Malformed iterator requests -/

theorem GetNext_of_bad_handle (t : RadixTree σ ι) (self : KVSRadixTreeTiny σ ι)
    (h : Int) (key : List Nat) (key_len val val_len : Nat)
    (hh : h < 0 ∨ h ≥ castInt self.iters_.length) :
    GetNext t self h key key_len val val_len = ⟨-1, h, key, key_len, val, val_len, self⟩ := by
  unfold GetNext
  split_ifs <;> rfl

theorem GetNext_of_good_handle (t : RadixTree σ ι) (self : KVSRadixTreeTiny σ ι)
    (h : Int) (key : List Nat) (key_len val val_len : Nat)
    (hk : key_len ≤ 40) (hv : val_len ≤ 8) (h0 : 0 ≤ h) (h1 : h < castInt self.iters_.length) :
    (GetNext t self h key key_len val val_len).ret =
      (if (t.get_next self.tree_ (self.iterHeap.getD (self.iters_.getD h.toNat 0) t.newIter)
          key key_len TagGptr.null).ret = 0 then 0 else -2) := by
  unfold GetNext kMaxKeyLen kMaxValLen
  have hk2 : ¬ key_len > 40 := by omega
  have hv2 : ¬ val_len > 8 := by omega
  have hh : ¬ (h < 0 ∨ h ≥ castInt self.iters_.length) := by omega
  simp only [hk2, hv2, hh, if_false]
  split_ifs <;> simp_all

/-- C5, as stated, fails when the table holds 2^31 iterators: the handle 0 is in
range, key_len and val_len are within the limits, and GetNext returns -1. -/
theorem GetNext_rejects_handle_in_range :
    (0 : Int) ≤ 0 ∧ (0 : Int) < (fullTable.iters_.length : Int) ∧
    (GetNext Spec.tree fullTable 0 [] 0 0 0).ret = -1 := by
  have hc : castInt 2147483648 = -2147483648 := by decide
  have hg := GetNext_of_bad_handle Spec.tree fullTable 0 [] 0 0 0
    (Or.inr (by rw [fullTable_length, hc]; decide))
  rw [hg, fullTable_length]
  exact ⟨by decide, by decide, rfl⟩

/-- C5, amended: GetNext returns -1 whenever iter_handle < 0 or iter_handle >=
the number of iterators in the table, and Scan returns -1 whenever
begin_key_len > 40 or end_key_len > 40; in both cases the tree is not called and
the store, the table and every reference parameter are unchanged. Conversely,
while the table holds fewer than 2^31 iterators, with key_len <= 40,
val_len <= 8 and a handle in range GetNext never returns -1: it returns -2
exactly when the tree's get_next returns non-zero and 0 otherwise. -/
theorem malformed_iterator_request (t : RadixTree σ ι) (self : KVSRadixTreeTiny σ ι)
    (h : Int) (key : List Nat) (key_len val val_len : Nat)
    (bk : List Nat) (bn : Nat) (bi : Bool) (ek : List Nat) (en : Nat) (ei : Bool)
    (log : List Call) :
    let g := GetNext t self h key key_len val val_len
    let tr := t.get_next self.tree_
      (self.iterHeap.getD (self.iters_.getD h.toNat 0) t.newIter) key key_len TagGptr.null
    ((h < 0 ∨ h ≥ (self.iters_.length : Int)) →
      g = ⟨-1, h, key, key_len, val, val_len, self⟩ ∧
      (GetNext t.logged (self.withLog log) h key key_len val val_len).self.tree_.2 = log) ∧
    ((bn > 40 ∨ en > 40) →
      Scan t self h key key_len val val_len bk bn bi ek en ei =
        ⟨-1, h, key, key_len, val, val_len, self⟩ ∧
      (Scan t.logged (self.withLog log) h key key_len val val_len
        bk bn bi ek en ei).self.tree_.2 = log) ∧
    (self.iters_.length < 2147483648 → key_len ≤ 40 → val_len ≤ 8 →
      0 ≤ h → h < (self.iters_.length : Int) →
      g.ret ≠ -1 ∧ (g.ret = -2 ↔ tr.ret ≠ 0) ∧ (g.ret = 0 ↔ tr.ret = 0)) := by
  intro g tr
  refine ⟨?_, ?_, ?_⟩
  · intro hh
    have hle := castInt_le self.iters_.length
    have hh2 : h < 0 ∨ h ≥ castInt self.iters_.length := by omega
    refine ⟨GetNext_of_bad_handle t self h key key_len val val_len hh2, ?_⟩
    rw [GetNext_of_bad_handle t.logged (self.withLog log) h key key_len val val_len hh2]
    rfl
  · intro hb
    have hl : bn > 40 ∨ en > 40 ∨ key_len > 40 ∨ val_len > 8 := by omega
    refine ⟨Scan_of_limit t self h key key_len val val_len bk bn bi ek en ei hl, ?_⟩
    rw [Scan_of_limit t.logged (self.withLog log) h key key_len val val_len bk bn bi ek en ei hl]
    rfl
  · intro hn hk hv h0 h1
    have hc := castInt_of_lt self.iters_.length hn
    have hg := GetNext_of_good_handle t self h key key_len val val_len hk hv h0
      (by rw [hc]; exact h1)
    simp only [g, tr, hg]
    by_cases ht : (t.get_next self.tree_
        (self.iterHeap.getD (self.iters_.getD h.toNat 0) t.newIter) key key_len
        TagGptr.null).ret = 0
    · rw [if_pos ht]
      exact ⟨by decide, ⟨fun h => absurd h (by decide), fun h => absurd ht h⟩,
        ⟨fun _ => ht, fun _ => rfl⟩⟩
    · rw [if_neg ht]
      exact ⟨by decide, ⟨fun _ => ht, fun _ => rfl⟩,
        ⟨fun h => absurd h (by decide), fun h => absurd h ht⟩⟩

/-- Witness of the amended C5: on the store that holds the key "a" and no
iterator, the handle 0 is out of range and GetNext returns -1 with nothing
changed; after a successful Scan the handle 0 is in range and GetNext does not
return -1. -/
theorem malformed_iterator_request_witness :
    GetNext Spec.tree storeA5 0 [] 0 0 0 = ⟨-1, 0, [], 0, 0, 0, storeA5⟩ ∧
    (GetNext Spec.tree (run Spec.tree storeA5 [Op.Scan 7 [] 0 0 0 [0] 1 false [0] 1 false])
      0 [] 0 0 0).ret ≠ -1 :=
  ⟨((malformed_iterator_request Spec.tree storeA5 0 [] 0 0 0 [] 0 false [] 0 false []).1
      (Or.inr (by decide))).1,
   ((malformed_iterator_request Spec.tree
      (run Spec.tree storeA5 [Op.Scan 7 [] 0 0 0 [0] 1 false [0] 1 false])
      0 [] 0 0 0 [] 0 false [] 0 false []).2.2
      (by decide) (by decide) (by decide) (by decide) (by decide)).1⟩

/-! ## Handles stay valid -/

theorem step_iters (t : RadixTree σ ι) (self : KVSRadixTreeTiny σ ι) (op : Op) :
    ∃ l, (step t self op).iters_ = self.iters_ ++ l := by
  cases op with
  | Put key key_len val val_len =>
    refine ⟨[], ?_⟩
    simp only [step, Put]
    split_ifs <;> simp
  | Get key key_len val val_len =>
    refine ⟨[], ?_⟩
    simp only [step, Get]
    split_ifs <;> simp
  | Del key key_len =>
    refine ⟨[], ?_⟩
    simp only [step, Del]
    split_ifs <;> simp
  | Scan h key key_len val val_len bk bn bi ek en ei =>
    simp only [step, Scan]
    split_ifs
    · exact ⟨[], by simp⟩
    · exact ⟨[], by simp⟩
    · exact ⟨[], by simp⟩
    · exact ⟨[], by simp⟩
    · exact ⟨[self.iterHeap.length], rfl⟩
  | GetNext h key key_len val val_len =>
    refine ⟨[], ?_⟩
    simp only [step, GetNext]
    split_ifs <;> simp
  | Put_cache key key_len val val_len kp vp =>
    refine ⟨[], ?_⟩
    simp only [step, Put_cache]
    split_ifs <;> simp
  | Put_ptr kp vp val val_len =>
    refine ⟨[], ?_⟩
    simp only [step, Put_ptr]
    split_ifs <;> simp
  | Get_cache key key_len val val_len kp vp =>
    refine ⟨[], ?_⟩
    simp only [step, Get_cache]
    split_ifs <;> simp
  | Get_ptr kp vp val val_len gv =>
    refine ⟨[], ?_⟩
    simp only [step, Get_ptr]
    split_ifs <;> simp
  | Del_cache key key_len kp vp =>
    refine ⟨[], ?_⟩
    simp only [step, Del_cache]
    split_ifs <;> simp
  | Del_ptr kp vp =>
    exact ⟨[], by simp [step, Del_ptr]⟩
  | FindOrCreate key key_len val val_len rv rl =>
    exact ⟨[], by simp [step, FindOrCreate]⟩

theorem run_iters (t : RadixTree σ ι) (ops : List Op) :
    ∀ self : KVSRadixTreeTiny σ ι, ∃ l, (run t self ops).iters_ = self.iters_ ++ l := by
  induction ops with
  | nil =>
    intro self
    exact ⟨[], by simp [run]⟩
  | cons op ops ih =>
    intro self
    obtain ⟨l1, h1⟩ := step_iters t self op
    obtain ⟨l2, h2⟩ := ih (step t self op)
    refine ⟨l1 ++ l2, ?_⟩
    simp only [run]
    rw [h2, h1, List.append_assoc]

theorem Scan_of_ret_zero (t : RadixTree σ ι) (self : KVSRadixTreeTiny σ ι)
    (h : Int) (key : List Nat) (key_len val val_len : Nat)
    (bk : List Nat) (bn : Nat) (bi : Bool) (ek : List Nat) (en : Nat) (ei : Bool)
    (hret : (Scan t self h key key_len val val_len bk bn bi ek en ei).ret = 0) :
    (Scan t self h key key_len val val_len bk bn bi ek en ei).iter_handle =
      castInt self.iters_.length ∧
    (Scan t self h key key_len val val_len bk bn bi ek en ei).self.iters_ =
      self.iters_ ++ [self.iterHeap.length] := by
  by_cases hl : bn > 40 ∨ en > 40 ∨ key_len > 40 ∨ val_len > 8
  · rw [Scan_of_limit t self h key key_len val val_len bk bn bi ek en ei hl] at hret
    simp at hret
  · have hb : bn ≤ 40 := by omega
    have he : en ≤ 40 := by omega
    have hk : key_len ≤ 40 := by omega
    have hv : val_len ≤ 8 := by omega
    by_cases ht : (t.scan self.tree_ t.newIter key key_len TagGptr.null bk bn bi ek en ei).ret = 0
    · rw [Scan_of_tree_ok t self h key key_len val val_len bk bn bi ek en ei hb he hk hv ht]
      exact ⟨rfl, rfl⟩
    · rw [Scan_of_tree_fail t self h key key_len val val_len bk bn bi ek en ei hb he hk hv ht]
        at hret
      simp at hret

theorem handle_lost_at (t : RadixTree σ ι) (self : KVSRadixTreeTiny σ ι)
    (h : Int) (key : List Nat) (key_len val val_len : Nat)
    (bk : List Nat) (bn : Nat) (bi : Bool) (ek : List Nat) (en : Nat) (ei : Bool)
    (hlen : self.iters_.length = 2147483647)
    (hb : bn ≤ 40) (he : en ≤ 40) (hk : key_len ≤ 40) (hv : val_len ≤ 8)
    (hr : (t.scan self.tree_ t.newIter key key_len TagGptr.null bk bn bi ek en ei).ret = 0) :
    (Scan t self h key key_len val val_len bk bn bi ek en ei).ret = 0 ∧
    0 ≤ (Scan t self h key key_len val val_len bk bn bi ek en ei).iter_handle ∧
    (Scan t self h key key_len val val_len bk bn bi ek en ei).iter_handle <
      ((Scan t self h key key_len val val_len bk bn bi ek en ei).self.iters_.length : Int) ∧
    (GetNext t (run t (Scan t self h key key_len val val_len bk bn bi ek en ei).self [])
      (Scan t self h key key_len val val_len bk bn bi ek en ei).iter_handle
      [] 0 0 0).ret = -1 := by
  have hc1 : castInt 2147483647 = 2147483647 := by decide
  have hc2 : castInt 2147483648 = -2147483648 := by decide
  rw [Scan_of_tree_ok t self h key key_len val val_len bk bn bi ek en ei hb he hk hv hr]
  simp only [run, List.length_append, List.length_singleton, hlen, hc1]
  refine ⟨trivial, by decide, by decide, ?_⟩
  rw [GetNext_of_bad_handle]
  right
  simp only [List.length_append, List.length_singleton, hlen]
  exact le_of_eq_of_le hc2 (by decide)

/-- C10, as stated, fails when the table fills up to 2^31 iterators: on a table
of 2^31 - 1 entries a Scan succeeds and returns the handle 2^31 - 1, which is
within the table of 2^31 entries it leaves, and GetNext on that handle, with
key_len and val_len within the limits, returns -1. -/
theorem handle_lost_when_table_fills :
    (Scan Spec.tree almostFullTable 0 [] 0 0 0 [0] 1 false [0] 1 false).ret = 0 ∧
    0 ≤ (Scan Spec.tree almostFullTable 0 [] 0 0 0 [0] 1 false [0] 1 false).iter_handle ∧
    (Scan Spec.tree almostFullTable 0 [] 0 0 0 [0] 1 false [0] 1 false).iter_handle <
      ((Scan Spec.tree almostFullTable 0 [] 0 0 0 [0] 1 false [0] 1 false).self.iters_.length
        : Int) ∧
    (GetNext Spec.tree
      (run Spec.tree (Scan Spec.tree almostFullTable 0 [] 0 0 0 [0] 1 false [0] 1 false).self [])
      (Scan Spec.tree almostFullTable 0 [] 0 0 0 [0] 1 false [0] 1 false).iter_handle
      [] 0 0 0).ret = -1 :=
  handle_lost_at Spec.tree almostFullTable 0 [] 0 0 0 [0] 1 false [0] 1 false
    almostFullTable_length (by decide) (by decide) (by decide) (by decide) (by decide)

/-- C10, amended: for every sequence of facade operations the handle table stays
an initial segment of the later table, so its length never decreases and an
entry once appended is never replaced or moved. As long as the table holds fewer
than 2^31 iterators, every handle h returned by a successful Scan satisfies
0 <= h < table size in every later state and still designates the iterator that
Scan appended, a later successful Scan returns a different handle, and GetNext(h)
with key_len <= 40 and val_len <= 8 never returns -1. -/
theorem handles_stay_valid (t : RadixTree σ ι) (self : KVSRadixTreeTiny σ ι) (ops : List Op)
    (h : Int) (key : List Nat) (key_len val val_len : Nat)
    (bk : List Nat) (bn : Nat) (bi : Bool) (ek : List Nat) (en : Nat) (ei : Bool) :
    let r := Scan t self h key key_len val val_len bk bn bi ek en ei
    let later := run t r.self ops
    (∃ l, (run t self ops).iters_ = self.iters_ ++ l) ∧
    self.iters_.length ≤ (run t self ops).iters_.length ∧
    (r.ret = 0 → later.iters_.length < 2147483648 →
      0 ≤ r.iter_handle ∧ r.iter_handle < (later.iters_.length : Int) ∧
      later.iters_[r.iter_handle.toNat]? = some self.iterHeap.length ∧
      (∀ (h2 : Int) (key2 : List Nat) (key_len2 val2 val_len2 : Nat)
        (bk2 : List Nat) (bn2 : Nat) (bi2 : Bool) (ek2 : List Nat) (en2 : Nat) (ei2 : Bool),
        (Scan t later h2 key2 key_len2 val2 val_len2 bk2 bn2 bi2 ek2 en2 ei2).ret = 0 →
        (Scan t later h2 key2 key_len2 val2 val_len2 bk2 bn2 bi2 ek2 en2 ei2).iter_handle ≠
          r.iter_handle) ∧
      (∀ (key3 : List Nat) (key_len3 val3 val_len3 : Nat), key_len3 ≤ 40 → val_len3 ≤ 8 →
        (GetNext t later r.iter_handle key3 key_len3 val3 val_len3).ret ≠ -1)) := by
  intro r later
  obtain ⟨l0, hl0⟩ := run_iters t ops self
  refine ⟨⟨l0, hl0⟩, ?_, ?_⟩
  · rw [hl0, List.length_append]
    omega
  · intro hret hlen
    obtain ⟨hh, hi⟩ := Scan_of_ret_zero t self h key key_len val val_len bk bn bi ek en ei hret
    obtain ⟨l, hl⟩ := run_iters t ops r.self
    have hlater : later.iters_ = self.iters_ ++ [self.iterHeap.length] ++ l := by
      simp only [later, hl, r, hi]
    have hlen2 : later.iters_.length = self.iters_.length + 1 + l.length := by
      rw [hlater]
      simp only [List.length_append, List.length_singleton]
    have hn : self.iters_.length < 2147483648 := by omega
    have hhandle : r.iter_handle = (self.iters_.length : Int) := by
      simp only [r, hh]
      exact castInt_of_lt _ hn
    have hcl : castInt later.iters_.length = (later.iters_.length : Int) :=
      castInt_of_lt _ hlen
    refine ⟨?_, ?_, ?_, ?_, ?_⟩
    · rw [hhandle]
      omega
    · rw [hhandle, hlen2]
      omega
    · rw [hhandle, Int.toNat_ofNat, hlater, List.append_assoc,
        List.getElem?_append_right (le_refl _)]
      simp
    · intro h2 key2 key_len2 val2 val_len2 bk2 bn2 bi2 ek2 en2 ei2 hret2
      obtain ⟨hh2, _⟩ := Scan_of_ret_zero t later h2 key2 key_len2 val2 val_len2
        bk2 bn2 bi2 ek2 en2 ei2 hret2
      rw [hh2, hcl, hhandle, hlen2]
      omega
    · intro key3 key_len3 val3 val_len3 hk hv
      have hg := GetNext_of_good_handle t later r.iter_handle key3 key_len3 val3 val_len3 hk hv
        (by rw [hhandle]; omega) (by rw [hcl, hhandle, hlen2]; omega)
      rw [hg]
      split_ifs <;> decide

/-- Witness of the amended C10: a Scan on the store that holds the key "a", then
a Put and a second Scan; the first handle is 0 and GetNext on it does not return
-1 in the later state. -/
theorem handles_stay_valid_witness :
    (Scan Spec.tree storeA5 7 [] 0 0 0 [0] 1 false [0] 1 false).ret = 0 ∧
    (GetNext Spec.tree
      (run Spec.tree (Scan Spec.tree storeA5 7 [] 0 0 0 [0] 1 false [0] 1 false).self
        [Op.Put [98] 1 6 8, Op.Scan 7 [] 0 0 0 [0] 1 false [0] 1 false])
      (Scan Spec.tree storeA5 7 [] 0 0 0 [0] 1 false [0] 1 false).iter_handle
      [] 0 0 0).ret ≠ -1 :=
  ⟨by decide,
   ((handles_stay_valid Spec.tree storeA5
      [Op.Put [98] 1 6 8, Op.Scan 7 [] 0 0 0 [0] 1 false [0] 1 false]
      7 [] 0 0 0 [0] 1 false [0] 1 false).2.2 (by decide) (by decide)).2.2.2.2
     [] 0 0 0 (by decide) (by decide)⟩

end radixtree
